import Mathlib

/-!
Shallow embedding of the many-rs message/module plane: the dispatcher that the
`many_module` procedural macro generates (src/many-macros/src/lib.rs), the
kvstore module declaration (src/many/src/server/module/_3_kvstore.rs), and the
CLI's async-polling loop and token-id resolution (src/many-cli/src/main.rs).

The macro turns a trait declaration into a `validate`/`execute` pair; we embed
the semantics of the generated code, parameterised by the endpoint description
the macro extracts from the trait (name, policy flags, sender bit, argument
decoder, backend call, result encoder).  Stateful observations (mutex lock,
backend method call) are recorded as an explicit event trace.
-/

/-- An identity: anonymous (zero-length body) or a public-key identity
(hash bytes abstracted as a list of bytes). -/
inductive Identity where
  | anonymous : Identity
  | publicKey (bytes : List Nat) : Identity
  deriving DecidableEq

/-- The source's `Identity::is_anonymous`. -/
def Identity.is_anonymous : Identity → Bool
  | Identity.anonymous => true
  | Identity.publicKey _ => false

/-- A COSE header label (`coset::Label`): integer or text. -/
inductive Label where
  | int (n : Int) : Label
  | text (s : String) : Label
  deriving DecidableEq

/-- The COSE_Sign1 envelope, reduced to the only field the generated dispatcher
inspects: `envelope.protected.header.rest`, a list of (label, value) pairs.
Per the spec's header table the only optional label value is a bool. -/
structure CoseSign1 where
  protectedRest : List (Label × Bool)
  deriving DecidableEq

/-- The generated webauthn check builds
`BTreeMap::from_iter(envelope.protected.header.rest)` and asks
`contains_key(&coset::Label::Text(s))`; membership in the map from an iterator
is membership of the key among the pairs. -/
def CoseSign1.containsTextLabel (env : CoseSign1) (s : String) : Bool :=
  env.protectedRest.any fun p => decide (p.1 = Label.text s)

/-- Modelled from the spec: the `ManyError` variants raised by the generated
dispatcher (the many crate's error constructors are not under src/).  The
constructor names follow the spec's error taxonomy; the source reaches them
through `ManyError::invalid_method_name` (= `unknownMethod`),
`sender_cannot_be_anonymous`, `non_webauthn_request_denied`,
`deserialization_error`, `serialization_error` and `internal_server_error`. -/
inductive ManyError where
  | unknownMethod (method : String) : ManyError
  | senderCannotBeAnonymous : ManyError
  | nonWebAuthnRequestDenied (method : String) : ManyError
  | deserializationError (msg : String) : ManyError
  | serializationError (msg : String) : ManyError
  | internalServerError : ManyError
  deriving DecidableEq

/-- An attribute id (`many::protocol::Attribute`), reduced to its numeric id. -/
structure Attribute where
  id : Nat
  deriving DecidableEq

/-- A request message, with the fields the generated dispatcher reads
(`from`, `to`, `method`, `data`, `id`).  `from` is optional in the source
(`message.from.unwrap_or_default()`). -/
structure RequestMessage where
  version : Nat
  «from» : Option Identity
  «to» : Identity
  method : String
  data : List Nat
  timestamp : Nat
  id : Option Nat
  deriving DecidableEq

instance {ε α : Type} [DecidableEq ε] [DecidableEq α] : DecidableEq (Except ε α) := fun a b =>
  match a, b with
  | Except.error x, Except.error y =>
    if h : x = y then Decidable.isTrue (by rw [h])
    else Decidable.isFalse (fun hh => h (Except.error.inj hh))
  | Except.error _, Except.ok _ => Decidable.isFalse (fun hh => Except.noConfusion hh)
  | Except.ok _, Except.error _ => Decidable.isFalse (fun hh => Except.noConfusion hh)
  | Except.ok x, Except.ok y =>
    if h : x = y then Decidable.isTrue (by rw [h])
    else Decidable.isFalse (fun hh => h (Except.ok.inj hh))

/-- A response message, per the spec's schema: `data` is a success payload or a
`ManyError`. -/
structure ResponseMessage where
  version : Nat
  «from» : Identity
  «to» : Option Identity
  data : Except ManyError (List Nat)
  timestamp : Nat
  id : Option Nat
  attributes : List Attribute
  deriving DecidableEq

/-- Modelled from the spec: `ResponseMessage::from_request` (the many crate's
message module is not under src/).  Per the spec it wraps a result into a
response with `from` = the given identity, `to` = the request's `from`,
inheriting `id` and setting `timestamp` to the execution time. -/
def ResponseMessage.from_request (req : RequestMessage) (sender : Identity)
    (d : Except ManyError (List Nat)) (now : Nat) : ResponseMessage :=
  { version := 1, «from» := sender, «to» := req.«from», data := d,
    timestamp := now, id := req.id, attributes := [] }

/-- True on the characters the camel-case conversion treats as separators. -/
def isWordSep (c : Char) : Bool := c = '_' || c = '-' || c = ' '

/-- Splits a name into words at separators and at upper-case letters.
Auxiliary recursion carrying the (reversed) current word. -/
def splitWordsAux : List Char → List Char → List (List Char)
  | [], acc => if acc = [] then [] else [acc.reverse]
  | c :: cs, acc =>
    if isWordSep c then
      (if acc = [] then [] else [acc.reverse]) ++ splitWordsAux cs []
    else if c.isUpper then
      (if acc = [] then [] else [acc.reverse]) ++ splitWordsAux cs [c]
    else
      splitWordsAux cs (c :: acc)

/-- Capitalises a word: first character upper-case, the rest lower-case. -/
def capitalizeWord : List Char → List Char
  | [] => []
  | c :: cs => c.toUpper :: cs.map Char.toLower

/-- Modelled from the spec: `camelCase(methodName)` — the inflections crate's
`to_camel_case`, an external dependency not under src/.  Words are split at
separators and case boundaries; the first word is lower-cased and subsequent
words are capitalised. -/
def camelCase (s : String) : String :=
  match splitWordsAux s.data [] with
  | [] => ""
  | w :: ws => String.mk (w.map Char.toLower ++ (ws.map capitalizeWord).flatten)

/-- The endpoint description the macro's `Endpoint::new` extracts from one
trait method, as consumed by `validate_endpoint_pat` / `execute_endpoint_pat`:
the Rust method name, the `#[many(...)]` policy flags, the sender bit, receiver
mutability, the optional typed-argument decoder, the backend method itself and
the result encoder.  `St` is the backend type, `V` the CBOR value type. -/
structure Endpoint (St V : Type) where
  rustName : String
  deny_anonymous : Bool
  check_webauthn : Bool
  has_sender : Bool
  is_mut : Bool
  arg : Option (List Nat → Except String V)
  call : St → Option Identity → Option V → Except ManyError V
  encode : V → Except String (List Nat)

/-- Observable backend interactions of the generated code: taking the backend
mutex (`self.backend.lock()`) and invoking a backend method. -/
inductive BackendEvent where
  | lock (mutable : Bool) : BackendEvent
  | call (methodName : String) : BackendEvent
  deriving DecidableEq

/-- A module as the macro assembles it: `ManyModuleInfo` data (name, optional
attribute, namespace) plus the endpoint list and the shared backend. -/
structure ManyModule (St V : Type) where
  name : String
  attr : Option Attribute
  ns : Option String
  endpoints : List (Endpoint St V)
  backend : St

/-- The method string of one endpoint, as computed in `validate_endpoint_pat`,
`execute_endpoint_pat` and `endpoint_strings`: `namespace + "." +
camelCase(name)` when the module declares a namespace, else
`camelCase(name)`. -/
def endpointString {St V : Type} (ns : Option String) (e : Endpoint St V) : String :=
  match ns with
  | some n => n ++ "." ++ camelCase e.rustName
  | none => camelCase e.rustName

/-- The `endpoints` field of the generated `ManyModuleInfo`
(`endpoint_strings` in the macro). -/
def endpointStrings {St V : Type} (m : ManyModule St V) : List String :=
  m.endpoints.map (endpointString m.ns)

/-- First endpoint whose method string equals `method`, mirroring the order of
the generated `match` arms. -/
def findEndpointAux {St V : Type} (ns : Option String) (method : String) :
    List (Endpoint St V) → Option (Endpoint St V)
  | [] => none
  | e :: rest =>
    if endpointString ns e = method then some e else findEndpointAux ns method rest

/-- Endpoint lookup on a module by method string. -/
def ManyModule.findEndpoint {St V : Type} (m : ManyModule St V) (method : String) :
    Option (Endpoint St V) :=
  findEndpointAux m.ns method m.endpoints

/-- The argument-decoding check in the generated `validate`
(`minicbor::decode::<ty>(data).map_err(deserialization_error)`); absent
argument type means no check. -/
def argCheck {St V : Type} (e : Endpoint St V) (data : List Nat) : Except ManyError Unit :=
  match e.arg with
  | some dec =>
    match dec data with
    | Except.error s => Except.error (ManyError.deserializationError s)
    | Except.ok _ => Except.ok ()
  | none => Except.ok ()

/-- The argument decoding in the generated `execute` (the local `decode`
helper, applied when the endpoint declares a typed argument). -/
def argDecode {St V : Type} (e : Endpoint St V) (data : List Nat) : Except ManyError (Option V) :=
  match e.arg with
  | some dec =>
    match dec data with
    | Except.error s => Except.error (ManyError.deserializationError s)
    | Except.ok v => Except.ok (some v)
  | none => Except.ok none

/-- One `validate` match arm (`validate_endpoint_pat`): the anonymity check,
then the webauthn check, then the argument decoding check.  The trace records
backend interactions; the generated arm contains none. -/
def validateChecks {St V : Type} (e : Endpoint St V) (msg : RequestMessage)
    (env : CoseSign1) : Except ManyError Unit × List BackendEvent :=
  if e.deny_anonymous && (msg.«from».getD Identity.anonymous).is_anonymous then
    (Except.error ManyError.senderCannotBeAnonymous, [])
  else if e.check_webauthn && !(env.containsTextLabel "webauthn") then
    (Except.error (ManyError.nonWebAuthnRequestDenied msg.method), [])
  else
    (argCheck e msg.data, [])

/-- The generated `validate` match over the endpoint list; the default arm
returns `ManyError::invalid_method_name` (the spec's `UnknownMethod`). -/
def validateAux {St V : Type} (ns : Option String) (msg : RequestMessage)
    (env : CoseSign1) : List (Endpoint St V) → Except ManyError Unit × List BackendEvent
  | [] => (Except.error (ManyError.unknownMethod msg.method), [])
  | e :: rest =>
    if endpointString ns e = msg.method then validateChecks e msg env
    else validateAux ns msg env rest

/-- The generated `validate(message, envelope)`. -/
def validate {St V : Type} (m : ManyModule St V) (msg : RequestMessage)
    (env : CoseSign1) : Except ManyError Unit × List BackendEvent :=
  validateAux m.ns msg env m.endpoints

/-- The generated `encode` helper in `execute`:
`minicbor::to_vec(result?).map_err(serialization_error)`. -/
def encodeStep {St V : Type} (e : Endpoint St V) (r : Except ManyError V) :
    Except ManyError (List Nat) :=
  match r with
  | Except.error err => Except.error err
  | Except.ok v =>
    match e.encode v with
    | Except.error s => Except.error (ManyError.serializationError s)
    | Except.ok bs => Except.ok bs

/-- One `execute` match arm (`execute_endpoint_pat`): lock the backend mutex,
decode the argument (failure propagates before the backend method is reached),
invoke the backend with the optional sender (`message.from.unwrap_or_default()`)
and decoded argument, encode the result. -/
def runEndpoint {St V : Type} (e : Endpoint St V) (st : St) (msg : RequestMessage) :
    Except ManyError (List Nat) × List BackendEvent :=
  match argDecode e msg.data with
  | Except.error err => (Except.error err, [BackendEvent.lock e.is_mut])
  | Except.ok v =>
    (encodeStep e (e.call st
        (if e.has_sender then some (msg.«from».getD Identity.anonymous) else none) v),
     [BackendEvent.lock e.is_mut, BackendEvent.call e.rustName])

/-- The generated `execute` match over the endpoint list; the default arm
returns `ManyError::internal_server_error`. -/
def executeAux {St V : Type} (ns : Option String) (st : St) (msg : RequestMessage) :
    List (Endpoint St V) → Except ManyError (List Nat) × List BackendEvent
  | [] => (Except.error ManyError.internalServerError, [])
  | e :: rest =>
    if endpointString ns e = msg.method then runEndpoint e st msg
    else executeAux ns st msg rest

/-- The generated `execute(message)`: dispatch, then wrap the success bytes via
`ResponseMessage::from_request(&message, &message.to, Ok(result))`; errors from
the dispatch propagate unchanged (`?`).  `now` is the wall-clock time at which
the response is stamped. -/
def execute {St V : Type} (m : ManyModule St V) (msg : RequestMessage) (now : Nat) :
    Except ManyError ResponseMessage × List BackendEvent :=
  match executeAux m.ns m.backend msg m.endpoints with
  | (Except.ok bytes, tr) =>
    (Except.ok (ResponseMessage.from_request msg msg.«to» (Except.ok bytes) now), tr)
  | (Except.error err, tr) => (Except.error err, tr)

/-- Replaces the module's backend, keeping the registration data. -/
def ManyModule.withBackend {St V : Type} (m : ManyModule St V) (st : St) : ManyModule St V :=
  { m with backend := st }

/-- Modelled from the spec: the `async.status` answer `StatusReturn`
(the many crate's async module is not under src/): `Unknown`, `Queued`,
`Processing`, `Done{response}` or `Expired`. -/
inductive StatusReturn where
  | unknown : StatusReturn
  | queued : StatusReturn
  | processing : StatusReturn
  | done (response : ResponseMessage) : StatusReturn
  | expired : StatusReturn
  deriving DecidableEq

/-- Outcome of the CLI's `show_response` on an empty async payload:
`shown r` hands the inner response back to `show_response` (the `Done` arm's
recursive call), `tokenOnly` prints the token and exits (`--async`),
`expiredOk` logs the expiry and returns `Ok(())`, `timeoutOk` falls out of the
60-iteration loop and returns `Ok(())`, `failed e` propagates an error of the
status call itself (the `?` operators in the loop body). -/
inductive PollOutcome where
  | shown (r : ResponseMessage) : PollOutcome
  | tokenOnly : PollOutcome
  | expiredOk : PollOutcome
  | timeoutOk : PollOutcome
  | failed (e : String) : PollOutcome
  deriving DecidableEq

/-- Whether the CLI run ends in an error (non-zero exit). -/
def PollOutcome.isError : PollOutcome → Bool
  | PollOutcome.failed _ => true
  | _ => false

/-- The `for _ in 0..60` loop of `show_response`: each iteration calls
`async.status` (the `i`-th answer is `status i`); `Done` returns the inner
response, `Expired` returns `Ok(())`, anything else sleeps one second and
retries.  The second component counts the one-second sleeps performed. -/
def pollLoop (status : Nat → Except String StatusReturn) :
    Nat → Nat → Nat → PollOutcome × Nat
  | 0, _, slept => (PollOutcome.timeoutOk, slept)
  | fuel + 1, i, slept =>
    match status i with
    | Except.error e => (PollOutcome.failed e, slept)
    | Except.ok (StatusReturn.done r) => (PollOutcome.shown r, slept)
    | Except.ok StatusReturn.expired => (PollOutcome.expiredOk, slept)
    | Except.ok _ => pollLoop status fuel (i + 1) (slept + 1)

/-- The async branch of the CLI's `show_response` (empty payload carrying an
`AsyncAttribute` token): with `--async` it prints the token and returns at
once; otherwise it runs the 60-attempt polling loop. -/
def showResponseAsync (asyncFlag : Bool) (status : Nat → Except String StatusReturn) :
    PollOutcome × Nat :=
  if asyncFlag then (PollOutcome.tokenOnly, 0) else pollLoop status 60 0 0

/-- A status answer on which the loop keeps polling (the `_` match arm). -/
def indecisive : Except String StatusReturn → Bool
  | Except.ok StatusReturn.unknown => true
  | Except.ok StatusReturn.queued => true
  | Except.ok StatusReturn.processing => true
  | _ => false

/-- The CLI's `GetTokenId` symbol resolution: find the first entry of
`info.local_names` whose name equals the requested symbol and return its
identity, else the could-not-resolve error (the failure the spec names
`SymbolNotFound`). -/
def getTokenId (local_names : List (Identity × String)) (symbol : String) :
    Except String Identity :=
  match local_names.find? (fun p => decide (p.2 = symbol)) with
  | some p => Except.ok p.1
  | none => Except.error ("Could not resolve symbol \x27" ++ symbol ++ "\x27")

/-- One input of a Rust trait-method signature as `Endpoint::new` sees it:
the receiver (with its mutability) or a typed pattern (pattern, type). -/
inductive RustFnArg where
  | receiver (is_mut : Bool) : RustFnArg
  | typed (pat : String) (ty : String) : RustFnArg
  deriving DecidableEq

/-- The classification `Endpoint::new` derives from a signature: the sender
bit, the optional typed CBOR argument and the receiver mutability. -/
structure EndpointSig where
  has_sender : Bool
  arg : Option (String × String)
  is_mut : Bool
  deriving DecidableEq

/-- The signature analysis of `Endpoint::new`: the first input must be a
receiver; then only the second and third inputs are inspected
(`maybe_identity` and `maybe_argument`), in the source's match-arm order:
a typed third input means sender plus argument, a typed second input alone
means argument only, no further inputs means neither, anything else is the
`Must have 2 or 3 arguments` error.  Inputs beyond the third are ignored. -/
def classifyInputs : List RustFnArg → Except String EndpointSig
  | [] => Except.error "Must have at least 1 argument"
  | first :: rest =>
    match first with
    | RustFnArg.typed _ _ => Except.error "Function in trait must have a receiver"
    | RustFnArg.receiver m =>
      match rest.get? 0, rest.get? 1 with
      | _, some (RustFnArg.typed p ty) =>
        Except.ok { has_sender := true, arg := some (p, ty), is_mut := m }
      | some (RustFnArg.typed p ty), none =>
        Except.ok { has_sender := false, arg := some (p, ty), is_mut := m }
      | none, none => Except.ok { has_sender := false, arg := none, is_mut := m }
      | _, _ => Except.error "Must have 2 or 3 arguments"

/-- True on typed (non-receiver) inputs. -/
def RustFnArg.isTyped : RustFnArg → Bool
  | RustFnArg.typed _ _ => true
  | RustFnArg.receiver _ => false

/-- Number of non-receiver parameters of a signature. -/
def nonReceiverArity (inputs : List RustFnArg) : Nat :=
  (inputs.filter RustFnArg.isTyped).length

/-- Well-formedness guaranteed by Rust syntax (syn): a receiver can only occur
as the first input. -/
def wfInputs (inputs : List RustFnArg) : Bool :=
  match inputs with
  | [] => true
  | _ :: rest => rest.all RustFnArg.isTyped

/-- The `info` endpoint of the kvstore trait declaration:
`fn info(&self, sender: &Identity, args: InfoArg) -> Result<InfoReturns, ManyError>`
— non-mut receiver, sender plus one typed argument, no policy flags. -/
def kvstoreInfoEndpoint {St V : Type} (dec : List Nat → Except String V)
    (call : St → Option Identity → Option V → Except ManyError V)
    (enc : V → Except String (List Nat)) : Endpoint St V :=
  { rustName := "info", deny_anonymous := false, check_webauthn := false,
    has_sender := true, is_mut := false, arg := some dec, call := call, encode := enc }

/-- The `get` endpoint of the kvstore trait declaration:
`fn get(&self, sender: &Identity, args: GetArgs) -> Result<GetReturns, ManyError>`. -/
def kvstoreGetEndpoint {St V : Type} (dec : List Nat → Except String V)
    (call : St → Option Identity → Option V → Except ManyError V)
    (enc : V → Except String (List Nat)) : Endpoint St V :=
  { rustName := "get", deny_anonymous := false, check_webauthn := false,
    has_sender := true, is_mut := false, arg := some dec, call := call, encode := enc }

/-- The module the macro generates from
`#[many_module(name = KvStoreModule, id = 3, namespace = kvstore, many_crate = crate)]`
on `KvStoreModuleBackend`: attribute id 3, namespace `kvstore`, endpoints
`info` and `get`, over an arbitrary backend. -/
def KvStoreModule {St V : Type} (backend : St)
    (decInfo decGet : List Nat → Except String V)
    (callInfo callGet : St → Option Identity → Option V → Except ManyError V)
    (enc : V → Except String (List Nat)) : ManyModule St V :=
  { name := "KvStoreModule", attr := some { id := 3 }, ns := some "kvstore",
    endpoints := [kvstoreInfoEndpoint decInfo callInfo enc,
                  kvstoreGetEndpoint decGet callGet enc],
    backend := backend }

/-- A concrete CBOR-argument decoder over `Nat` values, for instantiations:
a single-byte payload decodes to that byte. -/
def decNat : List Nat → Except String Nat
  | [n] => Except.ok n
  | _ => Except.error "invalid cbor"

/-- A concrete result encoder over `Nat` values. -/
def encNat : Nat → Except String (List Nat) := fun n => Except.ok [n]

/-- A concrete backend method that succeeds with the decoded argument. -/
def callOk : Unit → Option Identity → Option Nat → Except ManyError Nat :=
  fun _ _ v => Except.ok (v.getD 0)

/-- A concrete kvstore module instance over a unit backend. -/
def kvM : ManyModule Unit Nat := KvStoreModule () decNat decNat callOk callOk encNat

/-- A request for an unregistered method name. -/
def msgFoo : RequestMessage :=
  { version := 1, «from» := some (Identity.publicKey [1]), «to» := Identity.publicKey [2],
    method := "foo", data := [], timestamp := 0, id := some 4 }

/-- A request for `kvstore.info` with a decodable payload. -/
def msgInfo : RequestMessage :=
  { version := 1, «from» := some (Identity.publicKey [1]), «to» := Identity.publicKey [2],
    method := "kvstore.info", data := [7], timestamp := 0, id := some 4 }

/-- An envelope whose protected header carries no extra labels. -/
def envPlain : CoseSign1 := { protectedRest := [] }

/-- An endpoint declared with both `deny_anonymous` and `check_webauthn`. -/
def denyEndpoint : Endpoint Unit Nat :=
  { rustName := "secure", deny_anonymous := true, check_webauthn := true,
    has_sender := false, is_mut := false, arg := some decNat, call := callOk, encode := encNat }

/-- A namespace-less module carrying `denyEndpoint`. -/
def policyModule : ManyModule Unit Nat :=
  { name := "Policy", attr := none, ns := none, endpoints := [denyEndpoint], backend := () }

/-- An anonymous (absent-`from`) request for the `secure` endpoint. -/
def msgSecureAnon : RequestMessage :=
  { version := 1, «from» := none, «to» := Identity.publicKey [2],
    method := "secure", data := [7], timestamp := 0, id := none }

/-- An endpoint declared with `check_webauthn` only. -/
def webauthnEndpoint : Endpoint Unit Nat :=
  { rustName := "attested", deny_anonymous := false, check_webauthn := true,
    has_sender := true, is_mut := false, arg := none, call := callOk, encode := encNat }

/-- A namespace-less module carrying `webauthnEndpoint`. -/
def webModule : ManyModule Unit Nat :=
  { name := "Web", attr := none, ns := none, endpoints := [webauthnEndpoint], backend := () }

/-- A signed request for the `attested` endpoint. -/
def msgAttested : RequestMessage :=
  { version := 1, «from» := some (Identity.publicKey [1]), «to» := Identity.publicKey [2],
    method := "attested", data := [], timestamp := 0, id := none }

/-- A concrete inner response wrapped by an async `Done` answer. -/
def sampleResponse : ResponseMessage :=
  { version := 1, «from» := Identity.publicKey [2], «to» := some (Identity.publicKey [1]),
    data := Except.ok [3], timestamp := 5, id := some 4, attributes := [] }

/-- A status stream answering `Done` on the third poll and `Processing`
before. -/
def statusDoneAt2 : Nat → Except String StatusReturn :=
  fun i => if i = 2 then Except.ok (StatusReturn.done sampleResponse)
           else Except.ok StatusReturn.processing

/-! Helper lemmas about the generated dispatch. -/

theorem findEndpointAux_none_of_not_mem {St V : Type} (ns : Option String) (method : String) :
    ∀ l : List (Endpoint St V), method ∉ l.map (endpointString ns) →
      findEndpointAux ns method l = none
  | [], _ => rfl
  | e :: rest, h => by
    simp only [List.map_cons, List.mem_cons] at h
    push_neg at h
    obtain ⟨h1, h2⟩ := h
    rw [findEndpointAux, if_neg (fun hc => h1 hc.symm)]
    exact findEndpointAux_none_of_not_mem ns method rest h2

theorem validateAux_of_none {St V : Type} (ns : Option String) (msg : RequestMessage)
    (env : CoseSign1) :
    ∀ l : List (Endpoint St V), findEndpointAux ns msg.method l = none →
      validateAux ns msg env l = (Except.error (ManyError.unknownMethod msg.method), [])
  | [], _ => rfl
  | e :: rest, h => by
    by_cases hc : endpointString ns e = msg.method
    · simp [findEndpointAux, hc] at h
    · rw [findEndpointAux, if_neg hc] at h
      rw [validateAux, if_neg hc]
      exact validateAux_of_none ns msg env rest h

theorem validateAux_of_some {St V : Type} (ns : Option String) (msg : RequestMessage)
    (env : CoseSign1) :
    ∀ (l : List (Endpoint St V)) (e : Endpoint St V),
      findEndpointAux ns msg.method l = some e →
      validateAux ns msg env l = validateChecks e msg env
  | [], e, h => by simp [findEndpointAux] at h
  | e0 :: rest, e, h => by
    by_cases hc : endpointString ns e0 = msg.method
    · rw [findEndpointAux, if_pos hc] at h
      rw [validateAux, if_pos hc, Option.some.inj h]
    · rw [findEndpointAux, if_neg hc] at h
      rw [validateAux, if_neg hc]
      exact validateAux_of_some ns msg env rest e h

theorem executeAux_of_none {St V : Type} (ns : Option String) (st : St)
    (msg : RequestMessage) :
    ∀ l : List (Endpoint St V), findEndpointAux ns msg.method l = none →
      executeAux ns st msg l = (Except.error ManyError.internalServerError, [])
  | [], _ => rfl
  | e :: rest, h => by
    by_cases hc : endpointString ns e = msg.method
    · simp [findEndpointAux, hc] at h
    · rw [findEndpointAux, if_neg hc] at h
      rw [executeAux, if_neg hc]
      exact executeAux_of_none ns st msg rest h

theorem executeAux_of_some {St V : Type} (ns : Option String) (st : St)
    (msg : RequestMessage) :
    ∀ (l : List (Endpoint St V)) (e : Endpoint St V),
      findEndpointAux ns msg.method l = some e →
      executeAux ns st msg l = runEndpoint e st msg
  | [], e, h => by simp [findEndpointAux] at h
  | e0 :: rest, e, h => by
    by_cases hc : endpointString ns e0 = msg.method
    · rw [findEndpointAux, if_pos hc] at h
      rw [executeAux, if_pos hc, Option.some.inj h]
    · rw [findEndpointAux, if_neg hc] at h
      rw [executeAux, if_neg hc]
      exact executeAux_of_some ns st msg rest e h

theorem validateChecks_snd {St V : Type} (e : Endpoint St V) (msg : RequestMessage)
    (env : CoseSign1) : (validateChecks e msg env).2 = [] := by
  unfold validateChecks
  split_ifs <;> rfl

theorem validateAux_snd {St V : Type} (ns : Option String) (msg : RequestMessage)
    (env : CoseSign1) :
    ∀ l : List (Endpoint St V), (validateAux ns msg env l).2 = []
  | [] => rfl
  | e :: rest => by
    by_cases hc : endpointString ns e = msg.method
    · rw [validateAux, if_pos hc]
      exact validateChecks_snd e msg env
    · rw [validateAux, if_neg hc]
      exact validateAux_snd ns msg env rest

theorem argCheck_error_iff {St V : Type} (e : Endpoint St V) (data : List Nat)
    (err : ManyError) :
    argCheck e data = Except.error err ↔ argDecode e data = Except.error err := by
  unfold argCheck argDecode
  cases e.arg with
  | none => simp
  | some dec => cases hd : dec data <;> simp [hd]

theorem argCheck_ne_webauthn {St V : Type} (e : Endpoint St V) (data : List Nat)
    (s : String) :
    argCheck e data ≠ Except.error (ManyError.nonWebAuthnRequestDenied s) := by
  unfold argCheck
  cases e.arg with
  | none => simp
  | some dec => cases hd : dec data <;> simp [hd]

theorem validateChecks_fst_ok {St V : Type} (e : Endpoint St V) (msg : RequestMessage)
    (env : CoseSign1) (h : (validateChecks e msg env).1 = Except.ok ()) :
    argCheck e msg.data = Except.ok () := by
  unfold validateChecks at h
  split_ifs at h
  simp_all

theorem validateChecks_webauthn_iff {St V : Type} (e : Endpoint St V)
    (msg : RequestMessage) (env : CoseSign1)
    (hweb : e.check_webauthn = true)
    (hanon : (e.deny_anonymous && (msg.«from».getD Identity.anonymous).is_anonymous) = false) :
    ((validateChecks e msg env).1
        = Except.error (ManyError.nonWebAuthnRequestDenied msg.method)
      ↔ env.containsTextLabel "webauthn" = false) := by
  unfold validateChecks
  rw [hanon, hweb]
  cases hc : env.containsTextLabel "webauthn"
  · simp [hc]
  · simp [hc, argCheck_ne_webauthn]

/-! Helper lemmas about the CLI polling loop. -/

theorem pollLoop_step (status : Nat → Except String StatusReturn) (fuel i slept : Nat)
    (h : indecisive (status i) = true) :
    pollLoop status (fuel + 1) i slept = pollLoop status fuel (i + 1) (slept + 1) := by
  rcases hs : status i with e | r
  · rw [hs] at h
    exact absurd h (by simp [indecisive])
  · cases r with
    | unknown => simp [pollLoop, hs]
    | queued => simp [pollLoop, hs]
    | processing => simp [pollLoop, hs]
    | done resp =>
      rw [hs] at h
      exact absurd h (by simp [indecisive])
    | expired =>
      rw [hs] at h
      exact absurd h (by simp [indecisive])

theorem pollLoop_timeout (status : Nat → Except String StatusReturn) :
    ∀ (fuel i slept : Nat), (∀ j, j < fuel → indecisive (status (i + j)) = true) →
      pollLoop status fuel i slept = (PollOutcome.timeoutOk, slept + fuel)
  | 0, i, slept, _ => by simp [pollLoop]
  | fuel + 1, i, slept, h => by
    have h0 : indecisive (status i) = true := by simpa using h 0 (by omega)
    rw [pollLoop_step status fuel i slept h0]
    have hrec := pollLoop_timeout status fuel (i + 1) (slept + 1) (fun j hj => by
      have := h (j + 1) (by omega)
      rwa [show i + (j + 1) = i + 1 + j by omega] at this)
    rw [hrec]
    congr 1
    omega

theorem pollLoop_done (status : Nat → Except String StatusReturn) :
    ∀ (n fuel i slept : Nat) (r : ResponseMessage), n < fuel →
      (∀ j, j < n → indecisive (status (i + j)) = true) →
      status (i + n) = Except.ok (StatusReturn.done r) →
      pollLoop status fuel i slept = (PollOutcome.shown r, slept + n)
  | 0, fuel, i, slept, r, hf, _, hs => by
    cases fuel with
    | zero => omega
    | succ f =>
      rw [show i + 0 = i by omega] at hs
      simp [pollLoop, hs]
  | n + 1, fuel, i, slept, r, hf, hind, hs => by
    cases fuel with
    | zero => omega
    | succ f =>
      have h0 : indecisive (status i) = true := by simpa using hind 0 (by omega)
      rw [pollLoop_step status f i slept h0]
      have hrec := pollLoop_done status n f (i + 1) (slept + 1) r (by omega)
        (fun j hj => by
          have := hind (j + 1) (by omega)
          rwa [show i + (j + 1) = i + 1 + j by omega] at this)
        (by rwa [show i + 1 + n = i + (n + 1) by omega])
      rw [hrec]
      congr 1
      omega

theorem pollLoop_expired (status : Nat → Except String StatusReturn) :
    ∀ (n fuel i slept : Nat), n < fuel →
      (∀ j, j < n → indecisive (status (i + j)) = true) →
      status (i + n) = Except.ok StatusReturn.expired →
      pollLoop status fuel i slept = (PollOutcome.expiredOk, slept + n)
  | 0, fuel, i, slept, hf, _, hs => by
    cases fuel with
    | zero => omega
    | succ f =>
      rw [show i + 0 = i by omega] at hs
      simp [pollLoop, hs]
  | n + 1, fuel, i, slept, hf, hind, hs => by
    cases fuel with
    | zero => omega
    | succ f =>
      have h0 : indecisive (status i) = true := by simpa using hind 0 (by omega)
      rw [pollLoop_step status f i slept h0]
      have hrec := pollLoop_expired status n f (i + 1) (slept + 1) (by omega)
        (fun j hj => by
          have := hind (j + 1) (by omega)
          rwa [show i + (j + 1) = i + 1 + j by omega] at this)
        (by rwa [show i + 1 + n = i + (n + 1) by omega])
      rw [hrec]
      congr 1
      omega

/-- Claim C1 (amended): for a request whose method is not a registered
endpoint, `validate` returns the UnknownMethod error
(`ManyError::invalid_method_name`), while `execute` returns
InternalServerError (its default match arm); in both operations no backend
lock is taken and no backend method is invoked (empty event trace). -/
theorem unknown_method_dispatch {St V : Type} (m : ManyModule St V) (msg : RequestMessage)
    (env : CoseSign1) (now : Nat) (h : msg.method ∉ endpointStrings m) :
    validate m msg env = (Except.error (ManyError.unknownMethod msg.method), [])
    ∧ execute m msg now = (Except.error ManyError.internalServerError, []) := by
  have hfind : findEndpointAux m.ns msg.method m.endpoints = none :=
    findEndpointAux_none_of_not_mem m.ns msg.method m.endpoints h
  refine ⟨validateAux_of_none m.ns msg env m.endpoints hfind, ?_⟩
  unfold execute
  rw [executeAux_of_none m.ns m.backend msg m.endpoints hfind]

/-- Claim C1, counterexample to the claim as stated: on the unregistered
method `"foo"` of the kvstore module, `execute` returns InternalServerError,
not the UnknownMethod error the claim asserts. -/
theorem unknown_method_dispatch_cex :
    (execute kvM msgFoo 0).1 = Except.error ManyError.internalServerError
    ∧ (execute kvM msgFoo 0).1 ≠ Except.error (ManyError.unknownMethod "foo") := by
  refine ⟨rfl, ?_⟩
  decide

/-- Claim C1, witness: the amended statement at the concrete kvstore module
and the unregistered method `"foo"`. -/
theorem unknown_method_dispatch_case :
    validate kvM msgFoo envPlain = (Except.error (ManyError.unknownMethod "foo"), [])
    ∧ execute kvM msgFoo 0 = (Except.error ManyError.internalServerError, []) :=
  unknown_method_dispatch kvM msgFoo envPlain 0 (by decide)

/-- Claim C2: on an endpoint declared with `deny_anonymous`, a request whose
`from` is anonymous or absent is rejected by `validate` with
SenderCannotBeAnonymous, with no backend interaction (empty trace). -/
theorem deny_anonymous_rejects {St V : Type} (m : ManyModule St V) (msg : RequestMessage)
    (env : CoseSign1) (e : Endpoint St V)
    (hfind : m.findEndpoint msg.method = some e)
    (hdeny : e.deny_anonymous = true)
    (hanon : (msg.«from».getD Identity.anonymous).is_anonymous = true) :
    validate m msg env = (Except.error ManyError.senderCannotBeAnonymous, []) := by
  have hv := validateAux_of_some m.ns msg env m.endpoints e hfind
  unfold validate
  rw [hv]
  unfold validateChecks
  rw [hdeny, hanon]
  simp

/-- Claim C2, witness: the concrete `secure` endpoint (declared
`deny_anonymous`) rejects a request with absent `from`. -/
theorem deny_anonymous_rejects_case :
    validate policyModule msgSecureAnon envPlain
      = (Except.error ManyError.senderCannotBeAnonymous, []) :=
  deny_anonymous_rejects policyModule msgSecureAnon envPlain denyEndpoint rfl rfl rfl

/-- Claim C3 (amended): on an endpoint declared with `check_webauthn`,
provided the anonymity policy does not reject the request first (that check
precedes the webauthn check in the generated arm), `validate` returns
NonWebAuthnRequestDenied exactly when the envelope's protected header lacks
the text label `"webauthn"`; when the label is present the webauthn check
admits the call. -/
theorem check_webauthn_gate {St V : Type} (m : ManyModule St V) (msg : RequestMessage)
    (env : CoseSign1) (e : Endpoint St V)
    (hfind : m.findEndpoint msg.method = some e)
    (hweb : e.check_webauthn = true)
    (hanon : (e.deny_anonymous && (msg.«from».getD Identity.anonymous).is_anonymous) = false) :
    ((validate m msg env).1 = Except.error (ManyError.nonWebAuthnRequestDenied msg.method)
      ↔ env.containsTextLabel "webauthn" = false) := by
  have hv := validateAux_of_some m.ns msg env m.endpoints e hfind
  unfold validate
  rw [hv]
  exact validateChecks_webauthn_iff e msg env hweb hanon

/-- Claim C3, counterexample to the claim as stated: on an endpoint declared
with both `deny_anonymous` and `check_webauthn`, an anonymous request whose
envelope lacks the `"webauthn"` label is rejected with
SenderCannotBeAnonymous, not NonWebAuthnRequestDenied, so the claimed
"exactly when" biconditional fails. -/
theorem check_webauthn_gate_cex :
    envPlain.containsTextLabel "webauthn" = false
    ∧ (validate policyModule msgSecureAnon envPlain).1
        = Except.error ManyError.senderCannotBeAnonymous
    ∧ (validate policyModule msgSecureAnon envPlain).1
        ≠ Except.error (ManyError.nonWebAuthnRequestDenied "secure") := by
  refine ⟨rfl, rfl, ?_⟩
  decide

/-- Claim C3, witness: the amended statement at the concrete `attested`
endpoint (declared `check_webauthn` only) and a label-free envelope. -/
theorem check_webauthn_gate_case :
    ((validate webModule msgAttested envPlain).1
        = Except.error (ManyError.nonWebAuthnRequestDenied "attested")
      ↔ envPlain.containsTextLabel "webauthn" = false) :=
  check_webauthn_gate webModule msgAttested envPlain webauthnEndpoint rfl rfl rfl

/-- Claim C4 (amended): with the async opt-out false, the CLI polls
`async.status` at one-second intervals (the slept-seconds count is the number
of indecisive polls) for at most 60 attempts; observing `Done` it hands the
inner wrapped response back to `show_response`; observing `Expired` it logs
the expiry and returns successfully (no AsyncExpired error); exhausting the
60-attempt budget it likewise returns successfully (no AsyncTimeout error). -/
theorem async_poll_contract :
    (∀ status : Nat → Except String StatusReturn,
        (∀ i, i < 60 → indecisive (status i) = true) →
        showResponseAsync false status = (PollOutcome.timeoutOk, 60))
    ∧ (∀ (status : Nat → Except String StatusReturn) (n : Nat) (r : ResponseMessage),
        n < 60 → (∀ i, i < n → indecisive (status i) = true) →
        status n = Except.ok (StatusReturn.done r) →
        showResponseAsync false status = (PollOutcome.shown r, n))
    ∧ (∀ (status : Nat → Except String StatusReturn) (n : Nat),
        n < 60 → (∀ i, i < n → indecisive (status i) = true) →
        status n = Except.ok StatusReturn.expired →
        showResponseAsync false status = (PollOutcome.expiredOk, n)) := by
  refine ⟨fun status h => ?_, fun status n r hn hind hs => ?_, fun status n hn hind hs => ?_⟩
  · have := pollLoop_timeout status 60 0 0 (fun j hj => by simpa using h j hj)
    simpa [showResponseAsync] using this
  · have := pollLoop_done status n 60 0 0 r hn (fun j hj => by simpa using hind j hj)
      (by simpa using hs)
    simpa [showResponseAsync] using this
  · have := pollLoop_expired status n 60 0 0 hn (fun j hj => by simpa using hind j hj)
      (by simpa using hs)
    simpa [showResponseAsync] using this

/-- Claim C4, counterexample to the claim as stated: a status stream that
immediately answers `Expired` makes the CLI return success (not an
AsyncExpired failure), and a stream that always answers `Processing` makes it
return success after the 60-attempt budget (not an AsyncTimeout failure). -/
theorem async_poll_contract_cex :
    showResponseAsync false (fun _ => Except.ok StatusReturn.expired)
        = (PollOutcome.expiredOk, 0)
    ∧ PollOutcome.isError PollOutcome.expiredOk = false
    ∧ showResponseAsync false (fun _ => Except.ok StatusReturn.processing)
        = (PollOutcome.timeoutOk, 60)
    ∧ PollOutcome.isError PollOutcome.timeoutOk = false :=
  ⟨rfl, rfl, rfl, rfl⟩

/-- Claim C4, witness: a stream answering `Done` on the third poll yields the
inner response after two one-second sleeps. -/
theorem async_poll_contract_case :
    showResponseAsync false statusDoneAt2 = (PollOutcome.shown sampleResponse, 2) :=
  async_poll_contract.2.1 statusDoneAt2 2 sampleResponse (by omega) (by decide) rfl

/-- Claim C5: on a known endpoint whose run (argument decode, backend call,
result encode) succeeds with payload bytes, `execute` returns the response
built by `ResponseMessage::from_request(&message, &message.to, Ok(result))`:
its `from` is `message.to` (the identity the request addressed, i.e. the
server), its `to` is the request's `from`, its `id` is inherited and its
timestamp is the execution time. -/
theorem execute_success_wraps_response {St V : Type} (m : ManyModule St V)
    (msg : RequestMessage) (now : Nat) (e : Endpoint St V) (bytes : List Nat)
    (hfind : m.findEndpoint msg.method = some e)
    (hrun : (runEndpoint e m.backend msg).1 = Except.ok bytes) :
    (execute m msg now).1
        = Except.ok (ResponseMessage.from_request msg msg.«to» (Except.ok bytes) now)
    ∧ (ResponseMessage.from_request msg msg.«to» (Except.ok bytes) now).«from» = msg.«to»
    ∧ (ResponseMessage.from_request msg msg.«to» (Except.ok bytes) now).«to» = msg.«from»
    ∧ (ResponseMessage.from_request msg msg.«to» (Except.ok bytes) now).id = msg.id
    ∧ (ResponseMessage.from_request msg msg.«to» (Except.ok bytes) now).timestamp = now := by
  refine ⟨?_, rfl, rfl, rfl, rfl⟩
  unfold execute
  rw [executeAux_of_some m.ns m.backend msg m.endpoints e hfind]
  rcases hre : runEndpoint e m.backend msg with ⟨res, tr⟩
  rw [hre] at hrun
  simp only at hrun
  subst hrun
  simp

/-- Claim C5, witness: the concrete kvstore module on `kvstore.info` with a
decodable payload. -/
theorem execute_success_wraps_response_case :
    (execute kvM msgInfo 9).1
        = Except.ok (ResponseMessage.from_request msgInfo msgInfo.«to» (Except.ok [7]) 9)
    ∧ (ResponseMessage.from_request msgInfo msgInfo.«to» (Except.ok [7]) 9).«from»
        = msgInfo.«to»
    ∧ (ResponseMessage.from_request msgInfo msgInfo.«to» (Except.ok [7]) 9).«to»
        = msgInfo.«from»
    ∧ (ResponseMessage.from_request msgInfo msgInfo.«to» (Except.ok [7]) 9).id = msgInfo.id
    ∧ (ResponseMessage.from_request msgInfo msgInfo.«to» (Except.ok [7]) 9).timestamp = 9 :=
  execute_success_wraps_response kvM msgInfo 9 (kvstoreInfoEndpoint decNat callOk encNat)
    [7] rfl rfl

/-- Claim C6: (i) the argument-decoding step of `validate` fails exactly when
the argument-decoding step of `execute` fails, with the identical
DeserializationError (both expand to the same `minicbor::decode` call with
the same error mapping); (ii) hence a request that passed `validate` never
fails argument decoding inside `execute` on the dispatched endpoint. -/
theorem decode_agreement {St V : Type} :
    (∀ (e : Endpoint St V) (data : List Nat) (err : ManyError),
        argCheck e data = Except.error err ↔ argDecode e data = Except.error err)
    ∧ (∀ (m : ManyModule St V) (msg : RequestMessage) (env : CoseSign1)
        (e : Endpoint St V) (err : ManyError),
        (validate m msg env).1 = Except.ok () →
        m.findEndpoint msg.method = some e →
        argDecode e msg.data ≠ Except.error err) := by
  refine ⟨fun e data err => argCheck_error_iff e data err, ?_⟩
  intro m msg env e err hval hfind hdec
  have hv := validateAux_of_some m.ns msg env m.endpoints e hfind
  unfold validate at hval
  rw [hv] at hval
  have hok := validateChecks_fst_ok e msg env hval
  have hcontra := (argCheck_error_iff e msg.data err).mpr hdec
  rw [hok] at hcontra
  exact Except.noConfusion hcontra

/-- Claim C6, witness: on the concrete kvstore module, a request that passes
`validate` cannot fail argument decoding in `execute`. -/
theorem decode_agreement_case :
    argDecode (kvstoreInfoEndpoint decNat callOk encNat) msgInfo.data
      ≠ Except.error (ManyError.deserializationError "boom") :=
  decode_agreement.2 kvM msgInfo envPlain (kvstoreInfoEndpoint decNat callOk encNat)
    (ManyError.deserializationError "boom") rfl rfl

/-- Claim C7: `validate` has no backend effects: its event trace is empty
(it never takes the backend lock nor invokes a backend method, so the backend
state is untouched), and its result does not depend on the backend at all. -/
theorem validate_no_backend_effects {St V : Type} (m : ManyModule St V)
    (msg : RequestMessage) (env : CoseSign1) (st2 : St) :
    (validate m msg env).2 = []
    ∧ validate (m.withBackend st2) msg env = validate m msg env :=
  ⟨validateAux_snd m.ns msg env m.endpoints, rfl⟩

/-- Claim C8: endpoint naming is the deterministic function of the
declaration computed by `endpoint_strings` — `camelCase(methodName)` without
a namespace, `namespace ++ "." ++ camelCase(methodName)` with one — and the
kvstore module (namespace `kvstore`, attribute id 3) exposes exactly
`kvstore.info` and `kvstore.get`. -/
theorem endpoint_naming_kvstore :
    (∀ (St V : Type) (e : Endpoint St V), endpointString none e = camelCase e.rustName)
    ∧ (∀ (St V : Type) (n : String) (e : Endpoint St V),
        endpointString (some n) e = n ++ "." ++ camelCase e.rustName)
    ∧ (∀ (St V : Type) (backend : St) (decInfo decGet : List Nat → Except String V)
        (callInfo callGet : St → Option Identity → Option V → Except ManyError V)
        (enc : V → Except String (List Nat)),
        endpointStrings (KvStoreModule backend decInfo decGet callInfo callGet enc)
            = ["kvstore.info", "kvstore.get"]
        ∧ (KvStoreModule backend decInfo decGet callInfo callGet enc).attr
            = some { id := 3 }) :=
  ⟨fun _ _ _ => rfl, fun _ _ _ _ => rfl, fun _ _ _ _ _ _ _ _ => ⟨rfl, rfl⟩⟩

/-- Claim C9: against the symbol mapping `[(id(100), "XYZ")]` returned by
`ledger.info`, the GetTokenId resolution yields id(100) for `"XYZ"` and the
could-not-resolve failure (the spec's SymbolNotFound) for `"ABC"`. -/
theorem get_token_id_resolution :
    getTokenId [(Identity.publicKey [100], "XYZ")] "XYZ"
        = Except.ok (Identity.publicKey [100])
    ∧ getTokenId [(Identity.publicKey [100], "XYZ")] "ABC"
        = Except.error ("Could not resolve symbol \x27ABC\x27") :=
  ⟨rfl, rfl⟩

/-- Claim C10, counterexample to the claim as stated: a well-formed signature
with three non-receiver parameters is accepted by the classifier with the
sender bit set, so the sender bit is not equivalent to having exactly two
non-receiver parameters. -/
theorem endpoint_classifier_arity_cex :
    ¬ (∀ (inputs : List RustFnArg) (sig : EndpointSig),
        wfInputs inputs = true → classifyInputs inputs = Except.ok sig →
        (sig.has_sender = true ↔ nonReceiverArity inputs = 2)) := by
  intro h
  have h2 := (h [RustFnArg.receiver false, RustFnArg.typed "a" "A", RustFnArg.typed "b" "B",
      RustFnArg.typed "c" "C"]
      { has_sender := true, arg := some ("b", "B"), is_mut := false }
      (by decide) (by decide)).mp rfl
  exact absurd h2 (by decide)

/-- Claim C10 (amended): on well-formed signatures (receiver first, as Rust
syntax guarantees) accepted by the classifier, the sender bit is set iff the
signature has at least two non-receiver parameters (parameters beyond the
third are ignored); a signature with exactly one non-receiver parameter is
always classified as argument-only, whatever the parameter's type. -/
theorem endpoint_classifier_arity :
    (∀ (inputs : List RustFnArg) (sig : EndpointSig),
        wfInputs inputs = true → classifyInputs inputs = Except.ok sig →
        (sig.has_sender = true ↔ 2 ≤ nonReceiverArity inputs))
    ∧ (∀ (m : Bool) (p ty : String),
        classifyInputs [RustFnArg.receiver m, RustFnArg.typed p ty]
          = Except.ok { has_sender := false, arg := some (p, ty), is_mut := m }) := by
  constructor
  · intro inputs sig hwf hcl
    rcases inputs with _ | ⟨first, rest⟩
    · simp [classifyInputs] at hcl
    rcases first with ⟨m⟩ | ⟨p0, ty0⟩
    · rcases rest with _ | ⟨a, rest2⟩
      · have hc : classifyInputs [RustFnArg.receiver m]
            = Except.ok ⟨false, none, m⟩ := rfl
        rw [hc] at hcl
        have hs := Except.ok.inj hcl
        subst hs
        have h0 : nonReceiverArity [RustFnArg.receiver m] = 0 := rfl
        exact ⟨fun hh => absurd hh (by simp), fun hh => absurd hh (by omega)⟩
      · rcases a with ⟨m2⟩ | ⟨p, ty⟩
        · simp [wfInputs, RustFnArg.isTyped] at hwf
        · rcases rest2 with _ | ⟨b, t⟩
          · have hc : classifyInputs [RustFnArg.receiver m, RustFnArg.typed p ty]
                = Except.ok ⟨false, some (p, ty), m⟩ := rfl
            rw [hc] at hcl
            have hs := Except.ok.inj hcl
            subst hs
            have h1 : nonReceiverArity [RustFnArg.receiver m, RustFnArg.typed p ty] = 1 := rfl
            exact ⟨fun hh => absurd hh (by simp), fun hh => absurd hh (by omega)⟩
          · rcases b with ⟨m3⟩ | ⟨p2, ty2⟩
            · simp [wfInputs, RustFnArg.isTyped] at hwf
            · have hc : classifyInputs (RustFnArg.receiver m :: RustFnArg.typed p ty ::
                  RustFnArg.typed p2 ty2 :: t) = Except.ok ⟨true, some (p2, ty2), m⟩ := rfl
              rw [hc] at hcl
              have hs := Except.ok.inj hcl
              subst hs
              have h2 : 2 ≤ nonReceiverArity (RustFnArg.receiver m :: RustFnArg.typed p ty ::
                  RustFnArg.typed p2 ty2 :: t) := by
                unfold nonReceiverArity
                simp [List.filter, RustFnArg.isTyped]
              exact ⟨fun _ => h2, fun _ => rfl⟩
    · simp [classifyInputs] at hcl
  · intro m p ty
    rfl

/-- Claim C10, witness: the amended statement on the kvstore `info` signature
`(&self, sender: &Identity, args: InfoArg)` — two non-receiver parameters,
sender bit set. -/
theorem endpoint_classifier_arity_case :
    ((true : Bool) = true ↔ 2 ≤ nonReceiverArity [RustFnArg.receiver false,
        RustFnArg.typed "sender" "Identity", RustFnArg.typed "args" "InfoArg"]) :=
  endpoint_classifier_arity.1
    [RustFnArg.receiver false, RustFnArg.typed "sender" "Identity",
      RustFnArg.typed "args" "InfoArg"]
    { has_sender := true, arg := some ("args", "InfoArg"), is_mut := false }
    (by decide) (by decide)
